import Mathlib

/-!
# Verification of the seth client transaction engine (src/client.go)

A shallow embedding of the parts of `client.go` that the verified properties
speak about: transaction-option construction (`NewTXKeyOpts`,
`getProposedTransactionOptions`, `configureTransactionOpts`), gas estimation
(`CalculateGasEstimations`) and the decode orchestrator (`Decode`).

External collaborators (the RPC client, the Tracer, the ABI store, the JSON
persistence helpers) are modelled as oracle outcomes passed in an environment
record; the embedding tracks the observable effects the properties mention
(tracer invocations, configuration downgrades, appended JSON records, the
accumulated error list).

Go `*big.Int` fields are modelled as `Option Int` (`none` = nil pointer),
Go `uint64` as `Nat`, Go `int` / `int64` as `Int` where signedness matters.
-/

/-! ## Go error values

Errors in `client.go` come from `errors.New` / `errors.Wrap` (github.com/pkg/errors)
and stdlib `errors.Join`.  All of these allocate: two calls to `errors.New` with the
same message yield distinct pointer values.  We model each allocation with an
explicit `allocId`; distinct allocations carry distinct ids.  Go's interface
equality on these pointer types is allocation identity; none of them implements
an `Is(error) bool` method, so `errors.Is` never looks at message text.
-/

inductive GoError where
  | fundamental (allocId : Nat) (msg : String)
  | wrapped (allocId : Nat) (msg : String) (cause : GoError)
  | joined (allocId : Nat) (errs : List GoError)
deriving Repr

mutual

/-- `Error()` — pkg/errors wrapping renders as `"msg: cause"`, `errors.Join`
renders the joined messages on separate lines. -/
def GoError.message : GoError → String
  | .fundamental _ m => m
  | .wrapped _ m c => m ++ ": " ++ GoError.message c
  | .joined _ es => String.intercalate "\x0A" (goErrorMessages es)

def goErrorMessages : List GoError → List String
  | [] => []
  | e :: es => GoError.message e :: goErrorMessages es

end

/-- Go interface equality (`==`) between two error values: same allocation. -/
def GoError.sameAlloc : GoError → GoError → Bool
  | .fundamental i _, .fundamental j _ => i == j
  | .wrapped i _ _, .wrapped j _ _ => i == j
  | .joined i _, .joined j _ => i == j
  | _, _ => false

mutual

/-- Go stdlib `errors.Is(err, target)` (pkg/errors.Is delegates to it): walk the
`Unwrap` tree of `err` and compare each node with `target` by interface equality.
`wrapped` unwraps to its cause, `joined` unwraps to every joined error,
`fundamental` does not unwrap.  Message contents never influence the result. -/
def goErrorsIs (err target : GoError) : Bool :=
  GoError.sameAlloc err target ||
    (match err with
     | .fundamental _ _ => false
     | .wrapped _ _ c => goErrorsIs c target
     | .joined _ es => goErrorsIsAny es target)

def goErrorsIsAny : List GoError → GoError → Bool
  | [], _ => false
  | e :: es, t => goErrorsIs e t || goErrorsIsAny es t

end

/-! ## Go `strings.Contains` -/

/-- Helper for `goContains`: does `sub` occur as a contiguous run in `s`? -/
def goContainsList (sub : List Char) : List Char → Bool
  | [] => sub.isEmpty
  | c :: t => List.isPrefixOf sub (c :: t) || goContainsList sub t

/-- Go `strings.Contains s sub`. -/
def goContains (s sub : String) : Bool := goContainsList sub.data s.data

/-! ## String constants (src/client.go:41-48 and collaborators) -/

def TracingLevel_None : String := "NONE"

def TracingLevel_Reverted : String := "REVERTED"

def TracingLevel_All : String := "ALL"

/-- Modelled from the spec: the message of the error `decodeTransaction` returns
when no matching ABI method is found (the constant itself lives outside src/;
only its use `errors.New(ErrNoABIMethod)` appears in src/client.go:447). -/
def ErrNoABIMethod : String := "no ABI method found"

/-- Modelled from the spec: the marker substring of a fee-suggestion failure in
which the node returned a degenerate ("zero") suggested value (the constant
lives outside src/; src/client.go:943 only tests for it with
`strings.Contains`). -/
def ZeroGasSuggestedErr : String := "suggested gas tip or price is 0"

/-- Modelled from the spec: the sentinel "timeout" index `AnySyncedKey` returns
when no synced key is found before the deadline (defined outside src/;
src/client.go:777 compares against it).  It is a negative sentinel, so it can
never collide with a valid key ordinal. -/
def TimeoutKeyNum : Int := -80085

/-! ## Data model -/

/-- The network configuration fields of `Config.Network` that src/client.go reads
or writes.  `Simulated` stands for what `cfg.IsSimulatedNetwork()` (defined
outside src/) reports: whether the configured network is a local/simulated one
(modelled from the spec). -/
structure Network where
  Simulated : Bool
  GasPrice : Int
  GasFeeCap : Int
  GasTipCap : Int
  GasLimit : Nat
  EIP1559DynamicFees : Bool
  GasPriceEstimationEnabled : Bool
  GasPriceEstimationTxPriority : String
deriving Repr, DecidableEq

/-- The `Config` fields src/client.go reads or writes. -/
structure Cfg where
  Network : Network
  TracingLevel : String
  TraceToJson : Bool
  PendingNonceProtectionEnabled : Bool
deriving Repr, DecidableEq

/-- Modelled from the spec: `Config.IsSimulatedNetwork` (defined outside src/)
reports whether the configured network is a local/simulated network. -/
def Cfg.IsSimulatedNetwork (cfg : Cfg) : Bool := cfg.Network.Simulated

/-- The `Client` fields the verified code paths touch (src/client.go:51-67):
the config, the parallel address list and the accumulated error list. -/
structure Client where
  Cfg : Cfg
  Addresses : List Nat
  Errors : List GoError
deriving Repr

/-- src/client.go:816-820 — a priced-transaction proposal; each field is a
`*big.Int` (`none` = nil). -/
structure GasEstimations where
  GasPrice : Option Int
  GasTipCap : Option Int
  GasFeeCap : Option Int
deriving Repr, DecidableEq

/-- src/client.go:822-825. -/
structure NonceStatus where
  LastNonce : Nat
  PendingNonce : Nat
deriving Repr, DecidableEq

/-- The fields of go-ethereum's `bind.TransactOpts` that src/client.go sets.
`Context` models `context.WithValue(context.Background(), ContextErrorKey{}, err)`:
`some err` is a context carrying `err` under `ContextErrorKey`, `none` is a nil
context (the only contexts the source ever attaches carry exactly one error). -/
structure TransactOpts where
  Nonce : Option Int
  Value : Option Int
  GasPrice : Option Int
  GasFeeCap : Option Int
  GasTipCap : Option Int
  GasLimit : Nat
  NoSend : Bool
  Context : Option GoError
deriving Repr

/-- The zero `bind.TransactOpts{}` (src/client.go:783); also the shape of every
field we track in the result of `bind.NewKeyedTransactorWithChainID`
(src/client.go:888), which leaves all of them at their zero values. -/
def emptyTransactOpts : TransactOpts :=
  { Nonce := none, Value := none, GasPrice := none, GasFeeCap := none,
    GasTipCap := none, GasLimit := 0, NoSend := false, Context := none }

/-- src/client.go:907-913. -/
structure GasEstimationRequest where
  GasEstimationEnabled : Bool
  FallbackGasPrice : Int
  FallbackGasFeeCap : Int
  FallbackGasTipCap : Int
  Priority : String
deriving Repr, DecidableEq

/-- src/client.go:916-924 — `NewDefaultGasEstimationRequest`, reading the
current network configuration. -/
def NewDefaultGasEstimationRequest (cfg : Cfg) : GasEstimationRequest :=
  { GasEstimationEnabled := cfg.Network.GasPriceEstimationEnabled,
    FallbackGasPrice := cfg.Network.GasPrice,
    FallbackGasFeeCap := cfg.Network.GasFeeCap,
    FallbackGasTipCap := cfg.Network.GasTipCap,
    Priority := cfg.Network.GasPriceEstimationTxPriority }

/-- A mined transaction's receipt; only the status field is read
(src/client.go:441). -/
structure Receipt where
  Status : Nat
deriving Repr, DecidableEq

/-- A submitted transaction; only its hash is read by the verified paths. -/
structure Tx where
  Hash : String
deriving Repr, DecidableEq

/-- The decoded result record.  `decodeTransaction` (outside src/) is modelled
from the spec as always yielding a (possibly partially) decoded record —
"the already-partially-decoded record ... [is] still returned"; only its hash
is read by src/client.go. -/
structure DecodedTransaction where
  Hash : String
deriving Repr, DecidableEq

/-! ## Gas estimation (src/client.go:926-986)

The two RPC fee queries are modelled as oracle outcomes in `GasEnv`; the
result records the computed estimations, the (possibly downgraded)
configuration, and how many times each query was issued.
-/

/-- Oracle outcomes of the two fee-suggestion RPC calls:
`GetSuggestedEIP1559Fees` returns `(maxFee, priorityFee)` and
`GetSuggestedLegacyFees` returns a single suggested price (both defined outside
src/; src/client.go:950 and :961 only consume their results). -/
structure GasEnv where
  suggestedEIP1559 : Except GoError (Int × Int)
  suggestedLegacy : Except GoError Int

/-- Result of `CalculateGasEstimations`: the estimations, the configuration
after any one-time downgrades written through `m.Cfg.Network`, and the number
of EIP-1559 / legacy fee queries issued during the call. -/
structure GasCalcResult where
  estimations : GasEstimations
  cfg : Cfg
  eipQueries : Nat
  legacyQueries : Nat

/-- src/client.go:942-947 — the `disableEstimationsIfNeeded` closure: a failure
whose message carries the zero-gas marker permanently disables estimation. -/
def disableEstimationsIfNeeded (net : Network) (e : GoError) : Network :=
  if goContains e.message ZeroGasSuggestedErr then
    { net with GasPriceEstimationEnabled := false }
  else net

/-- src/client.go:949-958 — the `calculateLegacyFees` closure: on failure,
run the zero-gas check and fall back to the static legacy price. -/
def calculateLegacyFees (request : GasEstimationRequest)
    (suggestedLegacy : Except GoError Int) (est : GasEstimations) (net : Network) :
    GasEstimations × Network :=
  match suggestedLegacy with
  | .error e => ({ est with GasPrice := some request.FallbackGasPrice },
                 disableEstimationsIfNeeded net e)
  | .ok p => ({ est with GasPrice := some p }, net)

/-- src/client.go:969 — does the EIP-1559 fee-query failure text indicate the
fee-suggestion method is unsupported by the node? -/
def eip1559Unsupported (e : GoError) : Bool :=
  goContains e.message "method eth_maxPriorityFeePerGas" ||
    goContains e.message "method eth_maxFeePerGas" ||
    goContains e.message "method eth_feeHistory" ||
    goContains e.message "expected input list for types.txdata"

/-- src/client.go:928-986 — `CalculateGasEstimations`.  On a simulated network
or with estimation disabled, the static fallbacks are returned with no RPC
calls.  With dynamic fees enabled, a failed EIP-1559 query falls back to the
static fee/tip caps, runs the zero-gas check, and — when the failure text says
the method is unsupported — permanently clears `EIP1559DynamicFees` and
recomputes the price with the legacy path. -/
def Cfg.CalculateGasEstimations (cfg : Cfg) (request : GasEstimationRequest)
    (env : GasEnv) : GasCalcResult :=
  if cfg.IsSimulatedNetwork || !request.GasEstimationEnabled then
    { estimations := { GasPrice := some request.FallbackGasPrice,
                       GasFeeCap := some request.FallbackGasFeeCap,
                       GasTipCap := some request.FallbackGasTipCap },
      cfg := cfg, eipQueries := 0, legacyQueries := 0 }
  else if cfg.Network.EIP1559DynamicFees then
    match env.suggestedEIP1559 with
    | .error e =>
      let est0 : GasEstimations :=
        { GasPrice := none, GasFeeCap := some request.FallbackGasFeeCap,
          GasTipCap := some request.FallbackGasTipCap }
      let net1 := disableEstimationsIfNeeded cfg.Network e
      if eip1559Unsupported e then
        let net2 := { net1 with EIP1559DynamicFees := false }
        let r := calculateLegacyFees request env.suggestedLegacy est0 net2
        { estimations := r.1, cfg := { cfg with Network := r.2 },
          eipQueries := 1, legacyQueries := 1 }
      else
        { estimations := est0, cfg := { cfg with Network := net1 },
          eipQueries := 1, legacyQueries := 0 }
    | .ok mp =>
      { estimations := { GasPrice := none, GasFeeCap := some mp.1,
                         GasTipCap := some mp.2 },
        cfg := cfg, eipQueries := 1, legacyQueries := 0 }
  else
    let r := calculateLegacyFees request env.suggestedLegacy
      { GasPrice := none, GasFeeCap := none, GasTipCap := none } cfg.Network
    { estimations := r.1, cfg := { cfg with Network := r.2 },
      eipQueries := 0, legacyQueries := 1 }

/-! ## Proposed transaction options (src/client.go:847-905) -/

/-- src/client.go:862-868 — the message of the pending-nonce protection error
(`fmt.Errorf(errMsg, keyNum, pendingNonce-lastNonce)`). -/
def pendingNonceErrMsg (keyNum : Nat) (gap : Nat) : String :=
  "\x0Apending nonce for key " ++ toString keyNum ++
    " is higher than last nonce, there are " ++ toString gap ++
    " pending transactions.\x0A\x0AThis issue is caused by one of two things:\x0A" ++
    "1. You are using the same keyNum in multiple goroutines, which is not supported. Each goroutine should use an unique keyNum.\x0A" ++
    "2. You have stuck transaction(s). Speed them up by sending replacement transactions with higher gas price before continuing, otherwise future transactions most probably will also get stuck.\x0A"

/-- Oracle outcomes and allocation ids used by `getProposedTransactionOptions`:
the result of `getNonceStatus` (the two nonce reads, src/client.go:827-845),
the result of `bind.NewKeyedTransactorWithChainID` (src/client.go:888; the
fields we track are all zero in its result, so only success/failure matters),
and fresh allocation ids for the two errors the function can construct. -/
structure ProposedEnv where
  nonceStatus : Except GoError NonceStatus
  pendingNonceErrId : Nat
  gasEnv : GasEnv
  keyedTransactor : Except GoError Unit
  transactorWrapId : Nat

/-- Result of `getProposedTransactionOptions`: the mutated client (accumulated
errors, possibly downgraded gas configuration) plus the three returned values. -/
structure ProposedResult where
  client : Client
  opts : TransactOpts
  nonceStatus : NonceStatus
  estimations : GasEstimations

/-- src/client.go:848-905 — `getProposedTransactionOptions`.  A nonce-status
failure or a transactor failure appends the error to the client's `Errors` and
returns options whose context carries it; with pending-nonce protection on and
`pendingNonce > lastNonce`, the protection error is appended and carried in the
returned options' context instead of aborting. -/
def Client.getProposedTransactionOptions (c : Client) (keyNum : Nat)
    (env : ProposedEnv) : ProposedResult :=
  match env.nonceStatus with
  | .error err =>
    { client := { c with Errors := c.Errors ++ [err] },
      opts := { emptyTransactOpts with Context := some err },
      nonceStatus := { LastNonce := 0, PendingNonce := 0 },
      estimations := { GasPrice := none, GasTipCap := none, GasFeeCap := none } }
  | .ok ns =>
    let ctxErr : Option GoError :=
      if c.Cfg.PendingNonceProtectionEnabled = true ∧ ns.LastNonce < ns.PendingNonce then
        some (GoError.fundamental env.pendingNonceErrId
          (pendingNonceErrMsg keyNum (ns.PendingNonce - ns.LastNonce)))
      else none
    let c1 : Client := { c with Errors := c.Errors ++ ctxErr.toList }
    let gas := Cfg.CalculateGasEstimations c1.Cfg
      (NewDefaultGasEstimationRequest c1.Cfg) env.gasEnv
    let c2 : Client := { c1 with Cfg := gas.cfg }
    match env.keyedTransactor with
    | .error kerr =>
      let werr := GoError.wrapped env.transactorWrapId
        ("failed to create transactor for key " ++ toString keyNum) kerr
      { client := { c2 with Errors := c2.Errors ++ [werr] },
        opts := { emptyTransactOpts with Context := some werr },
        nonceStatus := { LastNonce := 0, PendingNonce := 0 },
        estimations := { GasPrice := none, GasTipCap := none, GasFeeCap := none } }
    | .ok _ =>
      { client := c2,
        opts := match ctxErr with
                | some e => { emptyTransactOpts with Context := some e }
                | none => emptyTransactOpts,
        nonceStatus := ns,
        estimations := gas.estimations }

/-! ## Configuring transaction options (src/client.go:1004-1024) -/

/-- A user-supplied `TransactOpt` functional option (src/client.go:703). -/
def TransactOptFn : Type := TransactOpts → TransactOpts

/-- Go's `int64(n)` reinterpretation of a `uint64` value, as used by
`big.NewInt(int64(nonce))` (src/client.go:1011). -/
def int64OfUint64 (n : Nat) : Int :=
  if n % 2 ^ 64 < 2 ^ 63 then (n % 2 ^ 64 : Int) else (n % 2 ^ 64 : Int) - 2 ^ 64

/-- src/client.go:1005-1024 — `configureTransactionOpts`: set the nonce, the
legacy gas price and the configured gas limit; with dynamic fees enabled, clear
the gas price and set the tip/fee caps instead; then apply the user-supplied
functional options in order. -/
def Cfg.configureTransactionOpts (cfg : Cfg) (opts : TransactOpts) (nonce : Nat)
    (estimations : GasEstimations) (o : List TransactOptFn) : TransactOpts :=
  let opts1 := { opts with Nonce := some (int64OfUint64 nonce),
                           GasPrice := estimations.GasPrice,
                           GasLimit := cfg.Network.GasLimit }
  let opts2 := if cfg.Network.EIP1559DynamicFees then
      { opts1 with GasPrice := none, GasTipCap := estimations.GasTipCap,
                   GasFeeCap := estimations.GasFeeCap }
    else opts1
  o.foldl (fun acc f => f acc) opts2

/-! ## NewTXKeyOpts (src/client.go:772-809) -/

/-- src/client.go:775-779 — the out-of-range error text, with the extra hint
when the failing index is the `AnySyncedKey` timeout sentinel. -/
def keyNumOutOfRangeMsg (numAddresses : Nat) (keyNum : Int) : String :=
  let base := "keyNum is out of range. Expected 0-" ++
    toString ((numAddresses : Int) - 1) ++ ". Got: " ++ toString keyNum
  if keyNum = TimeoutKeyNum then
    base ++ " (this is a probably because, we didn\x27t manage to find any synced key before timeout)"
  else base

/-- Environment for `NewTXKeyOpts`: a fresh allocation id for the out-of-range
error plus the oracle outcomes consumed by `getProposedTransactionOptions`. -/
structure TxKeyOptsEnv where
  outOfRangeErrId : Nat
  proposed : ProposedEnv

/-- src/client.go:774-809 — `NewTXKeyOpts`.  The out-of-range guard is
`keyNum > len(m.Addresses) || keyNum < 0`; when it fires, the error is appended
to the client's `Errors` and an empty `bind.TransactOpts` carrying the error in
its context is returned.  When the guard does not fire, `m.Addresses[keyNum]`
is dereferenced (src/client.go:794): `none` models the Go index-out-of-range
panic at that dereference. -/
def Client.NewTXKeyOpts (c : Client) (keyNum : Int) (env : TxKeyOptsEnv)
    (o : List TransactOptFn) : Option (Client × TransactOpts) :=
  if (c.Addresses.length : Int) < keyNum ∨ keyNum < 0 then
    let err := GoError.fundamental env.outOfRangeErrId
      (keyNumOutOfRangeMsg c.Addresses.length keyNum)
    some ({ c with Errors := c.Errors ++ [err] },
          { emptyTransactOpts with Context := some err })
  else if keyNum.toNat < c.Addresses.length then
    let r := c.getProposedTransactionOptions keyNum.toNat env.proposed
    some (r.client,
          Cfg.configureTransactionOpts r.client.Cfg r.opts r.nonceStatus.PendingNonce
            r.estimations o)
  else
    none

/-! ## The decode orchestrator (src/client.go:403-529) -/

/-- Oracle outcomes and fresh allocation ids consumed by `Decode`:
* `decodeCustomABIErr` — outcome of `m.DecodeCustomABIErr(txErr)` (outside src/;
  modelled from the spec: attempt to decode a structured revert reason from the
  error payload using the ABI store; `.ok reason` when decodable);
* `wrapAllocId` / `joinAllocId` — fresh ids for `errors.Wrap(txErr, reason)`
  (src/client.go:417) and `errors.Join(m.Errors...)` (src/client.go:410);
* `waitMined` — outcome of the receipt poll `m.WaitMined` (src/client.go:432);
* `revertReason` — modelled from the spec: `callAndGetRevertReason` (outside
  src/) replays the call to recover a best-effort revert reason for a
  zero-status receipt and returns it as a non-nil error;
* `decodeResult` — modelled from the spec: `m.decodeTransaction` (outside src/)
  always yields an (at least partially) decoded record, plus the decode error
  if any;
* `freshNoABIMethodId` — the allocation id of the `errors.New(ErrNoABIMethod)`
  value constructed at src/client.go:447: a fresh allocation, so its id differs
  from the id of every error allocated before that point (in particular from
  every id inside `decodeResult.2`);
* `traceResult` — outcome of `m.Tracer.TraceGethTX` (`none` = success). -/
structure DecodeEnv where
  decodeCustomABIErr : Except GoError String
  wrapAllocId : Nat
  joinAllocId : Nat
  waitMined : Except GoError Receipt
  revertReason : GoError
  decodeResult : DecodedTransaction × Option GoError
  freshNoABIMethodId : Nat
  traceResult : Option GoError

/-- What one `Decode` call returns and does: the dual result
`(decoded, err)`, the client afterwards (its tracing level may have been
downgraded), how many times the Tracer was invoked, whether the receipt poll
was entered, the hashes appended to the persisted reverted-transactions JSON
file, and the hashes of decoded data saved as JSON. -/
structure DecodeOutput where
  decoded : Option DecodedTransaction
  err : Option GoError
  client : Client
  tracerCalls : Nat
  waitedForReceipt : Bool
  revertedJsonAppends : List String
  traceJsonSaves : List String

/-- src/client.go:447 — the condition
`decodeErr != nil && errors.Is(decodeErr, errors.New(ErrNoABIMethod))`,
where the second argument is a fresh allocation with id `freshId`. -/
def noABIMethodBranch (decodeErr : Option GoError) (freshId : Nat) : Bool :=
  match decodeErr with
  | some de => goErrorsIs de (GoError.fundamental freshId ErrNoABIMethod)
  | none => false

/-- src/client.go:408-529 — `Decode`.  Pre-check on accumulated errors;
submission-failure handling via the ABI revert-reason decoder; nil-transaction
no-op; receipt await; revert classification; the (ErrNoABIMethod) early-return
branch; tracing gated on the configured level, with the one-time downgrade to
`NONE` when the node lacks `debug_traceTransaction`; JSON persistence of traces
when `TraceToJson` is set (a failed file write only logs, so the attempted
hashes are recorded either way). -/
def Client.Decode (c : Client) (tx : Option Tx) (txErr : Option GoError)
    (env : DecodeEnv) : DecodeOutput :=
  if 0 < c.Errors.length then
    { decoded := none, err := some (GoError.joined env.joinAllocId c.Errors),
      client := c, tracerCalls := 0, waitedForReceipt := false,
      revertedJsonAppends := [], traceJsonSaves := [] }
  else
    match txErr with
    | some te =>
      (match env.decodeCustomABIErr with
       | .ok reason =>
         { decoded := none, err := some (GoError.wrapped env.wrapAllocId reason te),
           client := c, tracerCalls := 0, waitedForReceipt := false,
           revertedJsonAppends := [], traceJsonSaves := [] }
       | .error _ =>
         { decoded := none, err := some te, client := c, tracerCalls := 0,
           waitedForReceipt := false, revertedJsonAppends := [], traceJsonSaves := [] })
    | none =>
      match tx with
      | none =>
        { decoded := none, err := none, client := c, tracerCalls := 0,
          waitedForReceipt := false, revertedJsonAppends := [], traceJsonSaves := [] }
      | some t =>
        match env.waitMined with
        | .error e =>
          { decoded := none, err := some e, client := c, tracerCalls := 0,
            waitedForReceipt := true, revertedJsonAppends := [], traceJsonSaves := [] }
        | .ok receipt =>
          let revertErr : Option GoError :=
            if receipt.Status = 0 then some env.revertReason else none
          let decoded := env.decodeResult.1
          if noABIMethodBranch env.decodeResult.2 env.freshNoABIMethodId then
            { decoded := some decoded, err := revertErr, client := c,
              tracerCalls := 0, waitedForReceipt := true,
              revertedJsonAppends := if c.Cfg.TraceToJson then [t.Hash] else [],
              traceJsonSaves := [] }
          else if c.Cfg.TracingLevel = TracingLevel_None then
            { decoded := some decoded, err := revertErr, client := c,
              tracerCalls := 0, waitedForReceipt := true,
              revertedJsonAppends := [], traceJsonSaves := [] }
          else if c.Cfg.TracingLevel = TracingLevel_All ∨
              (c.Cfg.TracingLevel = TracingLevel_Reverted ∧ revertErr.isSome = true) then
            match env.traceResult with
            | some traceErr =>
              let saves := if c.Cfg.TraceToJson then [decoded.Hash] else []
              if goContains traceErr.message "debug_traceTransaction does not exist" then
                { decoded := some decoded, err := revertErr,
                  client := { c with Cfg := { c.Cfg with TracingLevel := TracingLevel_None } },
                  tracerCalls := 1, waitedForReceipt := true,
                  revertedJsonAppends := [], traceJsonSaves := saves }
              else
                { decoded := some decoded, err := revertErr, client := c,
                  tracerCalls := 1, waitedForReceipt := true,
                  revertedJsonAppends := [], traceJsonSaves := saves }
            | none =>
              { decoded := some decoded, err := revertErr, client := c,
                tracerCalls := 1, waitedForReceipt := true,
                revertedJsonAppends := [],
                traceJsonSaves := if c.Cfg.TraceToJson then [decoded.Hash] else [] }
          else
            { decoded := some decoded, err := revertErr, client := c,
              tracerCalls := 0, waitedForReceipt := true,
              revertedJsonAppends := [], traceJsonSaves := [] }

/-! ## Shared sample data and helper lemmas -/

/-- A plain non-simulated legacy network used to build concrete witnesses. -/
def sampleNetwork : Network :=
  { Simulated := false, GasPrice := 7, GasFeeCap := 9, GasTipCap := 2,
    GasLimit := 21000, EIP1559DynamicFees := false,
    GasPriceEstimationEnabled := false,
    GasPriceEstimationTxPriority := "standard" }

/-- A sample gas-estimation request with estimation enabled. -/
def sampleReq : GasEstimationRequest :=
  { GasEstimationEnabled := true, FallbackGasPrice := 7, FallbackGasFeeCap := 9,
    FallbackGasTipCap := 2, Priority := "standard" }

/-- A sample fee-query environment in which both queries succeed. -/
def sampleGasEnv : GasEnv :=
  { suggestedEIP1559 := .ok (100, 3), suggestedLegacy := .ok 55 }

theorem int64OfUint64_eq_of_lt (n : Nat) (h : n < 2 ^ 63) :
    int64OfUint64 n = (n : Int) := by
  unfold int64OfUint64
  rw [Nat.mod_eq_of_lt (by omega)]
  simp only [h, if_true, reduceIte]
  omega

theorem disableEstimationsIfNeeded_keeps_disabled (net : Network) (e : GoError)
    (h : net.GasPriceEstimationEnabled = false) :
    (disableEstimationsIfNeeded net e).GasPriceEstimationEnabled = false := by
  unfold disableEstimationsIfNeeded
  split <;> simp [h]

theorem disableEstimationsIfNeeded_sets_false (net : Network) (e : GoError)
    (h : goContains e.message ZeroGasSuggestedErr = true) :
    (disableEstimationsIfNeeded net e).GasPriceEstimationEnabled = false := by
  unfold disableEstimationsIfNeeded
  simp [h]

theorem calcGas_eipQueries_zero_of_no_dynamic_fees (cfg : Cfg)
    (req : GasEstimationRequest) (env : GasEnv)
    (h : cfg.Network.EIP1559DynamicFees = false) :
    (Cfg.CalculateGasEstimations cfg req env).eipQueries = 0 := by
  unfold Cfg.CalculateGasEstimations
  split
  · rfl
  · simp [h]

theorem calcGas_no_queries_of_estimation_disabled (cfg : Cfg) (env : GasEnv)
    (h : cfg.Network.GasPriceEstimationEnabled = false) :
    (Cfg.CalculateGasEstimations cfg (NewDefaultGasEstimationRequest cfg) env).eipQueries = 0 ∧
    (Cfg.CalculateGasEstimations cfg (NewDefaultGasEstimationRequest cfg) env).legacyQueries = 0 := by
  unfold Cfg.CalculateGasEstimations NewDefaultGasEstimationRequest
  simp [h]

/-- With tracing level `NONE`, no `Decode` path ever invokes the Tracer. -/
theorem decode_skips_tracer_of_level_none (c : Client) (tx : Option Tx)
    (txErr : Option GoError) (env : DecodeEnv)
    (h : c.Cfg.TracingLevel = TracingLevel_None) :
    (Client.Decode c tx txErr env).tracerCalls = 0 := by
  unfold Client.Decode
  repeat' split <;> try rfl

/-! ## C4 — fallback values with no RPC calls -/

/-- C4: For every `GasEstimationRequest`, if the network is a simulated network
or `GasEstimationEnabled` is false, `CalculateGasEstimations` returns exactly
the request's fallback values (`GasPrice = FallbackGasPrice`,
`GasFeeCap = FallbackGasFeeCap`, `GasTipCap = FallbackGasTipCap`) and performs
no RPC calls. -/
theorem calculateGasEstimations_fallback_no_rpc (cfg : Cfg)
    (req : GasEstimationRequest) (env : GasEnv)
    (h : cfg.IsSimulatedNetwork = true ∨ req.GasEstimationEnabled = false) :
    (Cfg.CalculateGasEstimations cfg req env).estimations =
      { GasPrice := some req.FallbackGasPrice,
        GasFeeCap := some req.FallbackGasFeeCap,
        GasTipCap := some req.FallbackGasTipCap } ∧
    (Cfg.CalculateGasEstimations cfg req env).eipQueries = 0 ∧
    (Cfg.CalculateGasEstimations cfg req env).legacyQueries = 0 := by
  unfold Cfg.CalculateGasEstimations
  rcases h with h | h <;> simp [h]

/-- Witness for C4, at a simulated network with estimation enabled. -/
theorem calculateGasEstimations_fallback_no_rpc_witness :
    (Cfg.IsSimulatedNetwork
        { Network := { sampleNetwork with Simulated := true },
          TracingLevel := "NONE", TraceToJson := false,
          PendingNonceProtectionEnabled := false } = true ∨
      sampleReq.GasEstimationEnabled = false) ∧
    ((Cfg.CalculateGasEstimations
        { Network := { sampleNetwork with Simulated := true },
          TracingLevel := "NONE", TraceToJson := false,
          PendingNonceProtectionEnabled := false } sampleReq sampleGasEnv).estimations =
      { GasPrice := some sampleReq.FallbackGasPrice,
        GasFeeCap := some sampleReq.FallbackGasFeeCap,
        GasTipCap := some sampleReq.FallbackGasTipCap } ∧
    (Cfg.CalculateGasEstimations
        { Network := { sampleNetwork with Simulated := true },
          TracingLevel := "NONE", TraceToJson := false,
          PendingNonceProtectionEnabled := false } sampleReq sampleGasEnv).eipQueries = 0 ∧
    (Cfg.CalculateGasEstimations
        { Network := { sampleNetwork with Simulated := true },
          TracingLevel := "NONE", TraceToJson := false,
          PendingNonceProtectionEnabled := false } sampleReq sampleGasEnv).legacyQueries = 0) :=
  ⟨Or.inl rfl, calculateGasEstimations_fallback_no_rpc _ sampleReq sampleGasEnv (Or.inl rfl)⟩

/-! ## C10 — no mixing of fee models -/

/-- C10: For every call to `configureTransactionOpts` with no user-supplied
`TransactOpt` overrides (and a fresh transactor's options, whose fee caps are
unset), the returned options never mix the two fee models: with
`EIP1559DynamicFees` enabled, `GasPrice` is nil and the tip/fee caps come from
the estimations; otherwise `GasPrice` comes from the estimations and the
tip/fee caps remain unset.  The nonce is always set to the supplied pending
nonce (stated below the signed-64-bit bound, matching `big.NewInt(int64(nonce))`). -/
theorem configureTransactionOpts_no_fee_model_mixing (cfg : Cfg)
    (opts : TransactOpts) (nonce : Nat) (est : GasEstimations)
    (htip : opts.GasTipCap = none) (hfee : opts.GasFeeCap = none)
    (hn : nonce < 2 ^ 63) :
    (Cfg.configureTransactionOpts cfg opts nonce est []).Nonce = some (nonce : Int) ∧
    (cfg.Network.EIP1559DynamicFees = true →
      (Cfg.configureTransactionOpts cfg opts nonce est []).GasPrice = none ∧
      (Cfg.configureTransactionOpts cfg opts nonce est []).GasTipCap = est.GasTipCap ∧
      (Cfg.configureTransactionOpts cfg opts nonce est []).GasFeeCap = est.GasFeeCap) ∧
    (cfg.Network.EIP1559DynamicFees = false →
      (Cfg.configureTransactionOpts cfg opts nonce est []).GasPrice = est.GasPrice ∧
      (Cfg.configureTransactionOpts cfg opts nonce est []).GasTipCap = none ∧
      (Cfg.configureTransactionOpts cfg opts nonce est []).GasFeeCap = none) := by
  cases hE : cfg.Network.EIP1559DynamicFees <;>
    simp [Cfg.configureTransactionOpts, hE, htip, hfee, int64OfUint64_eq_of_lt nonce hn]

/-- Witness for C10, at a legacy-fee configuration with nonce 5. -/
theorem configureTransactionOpts_no_fee_model_mixing_witness :
    (emptyTransactOpts.GasTipCap = none ∧ emptyTransactOpts.GasFeeCap = none ∧
      5 < 2 ^ 63) ∧
    ((Cfg.configureTransactionOpts
        { Network := sampleNetwork, TracingLevel := "NONE", TraceToJson := false,
          PendingNonceProtectionEnabled := false } emptyTransactOpts 5
        { GasPrice := some 7, GasTipCap := none, GasFeeCap := none } []).Nonce = some (5 : Int) ∧
     (({ Network := sampleNetwork, TracingLevel := "NONE", TraceToJson := false,
          PendingNonceProtectionEnabled := false } : Cfg).Network.EIP1559DynamicFees = true →
      (Cfg.configureTransactionOpts
        { Network := sampleNetwork, TracingLevel := "NONE", TraceToJson := false,
          PendingNonceProtectionEnabled := false } emptyTransactOpts 5
        { GasPrice := some 7, GasTipCap := none, GasFeeCap := none } []).GasPrice = none ∧
      (Cfg.configureTransactionOpts
        { Network := sampleNetwork, TracingLevel := "NONE", TraceToJson := false,
          PendingNonceProtectionEnabled := false } emptyTransactOpts 5
        { GasPrice := some 7, GasTipCap := none, GasFeeCap := none } []).GasTipCap =
        ({ GasPrice := some 7, GasTipCap := none, GasFeeCap := none } : GasEstimations).GasTipCap ∧
      (Cfg.configureTransactionOpts
        { Network := sampleNetwork, TracingLevel := "NONE", TraceToJson := false,
          PendingNonceProtectionEnabled := false } emptyTransactOpts 5
        { GasPrice := some 7, GasTipCap := none, GasFeeCap := none } []).GasFeeCap =
        ({ GasPrice := some 7, GasTipCap := none, GasFeeCap := none } : GasEstimations).GasFeeCap) ∧
     (({ Network := sampleNetwork, TracingLevel := "NONE", TraceToJson := false,
          PendingNonceProtectionEnabled := false } : Cfg).Network.EIP1559DynamicFees = false →
      (Cfg.configureTransactionOpts
        { Network := sampleNetwork, TracingLevel := "NONE", TraceToJson := false,
          PendingNonceProtectionEnabled := false } emptyTransactOpts 5
        { GasPrice := some 7, GasTipCap := none, GasFeeCap := none } []).GasPrice =
        ({ GasPrice := some 7, GasTipCap := none, GasFeeCap := none } : GasEstimations).GasPrice ∧
      (Cfg.configureTransactionOpts
        { Network := sampleNetwork, TracingLevel := "NONE", TraceToJson := false,
          PendingNonceProtectionEnabled := false } emptyTransactOpts 5
        { GasPrice := some 7, GasTipCap := none, GasFeeCap := none } []).GasTipCap = none ∧
      (Cfg.configureTransactionOpts
        { Network := sampleNetwork, TracingLevel := "NONE", TraceToJson := false,
          PendingNonceProtectionEnabled := false } emptyTransactOpts 5
        { GasPrice := some 7, GasTipCap := none, GasFeeCap := none } []).GasFeeCap = none)) :=
  ⟨⟨rfl, rfl, by norm_num⟩,
    configureTransactionOpts_no_fee_model_mixing _ emptyTransactOpts 5
      { GasPrice := some 7, GasTipCap := none, GasFeeCap := none } rfl rfl (by norm_num)⟩

/-! ## C8 — pending-nonce protection attaches a context error -/

/-- C8: When preparing transaction options for a valid key (nonce reads and
transactor creation succeed) with `PendingNonceProtectionEnabled` set and the
node reporting a pending nonce strictly greater than the last confirmed nonce,
`getProposedTransactionOptions` returns an options object whose context carries
a non-nil error, and that error is also appended to the accumulated `Errors`;
with protection disabled, or with the pending nonce equal to the last confirmed
nonce, no context error is attached. -/
theorem getProposedTransactionOptions_pending_nonce_protection (c : Client)
    (keyNum : Nat) (env : ProposedEnv) (ns : NonceStatus)
    (hns : env.nonceStatus = .ok ns) (hkt : env.keyedTransactor = .ok ()) :
    (c.Cfg.PendingNonceProtectionEnabled = true → ns.LastNonce < ns.PendingNonce →
      ∃ e, (c.getProposedTransactionOptions keyNum env).opts.Context = some e ∧
        e ∈ (c.getProposedTransactionOptions keyNum env).client.Errors) ∧
    ((c.Cfg.PendingNonceProtectionEnabled = false ∨ ns.PendingNonce = ns.LastNonce) →
      (c.getProposedTransactionOptions keyNum env).opts.Context = none) := by
  constructor
  · intro hp hl
    refine ⟨GoError.fundamental env.pendingNonceErrId
      (pendingNonceErrMsg keyNum (ns.PendingNonce - ns.LastNonce)), ?_, ?_⟩ <;>
      simp [Client.getProposedTransactionOptions, hns, hkt, hp, hl, emptyTransactOpts]
  · intro hd
    rcases hd with hp | heq
    · simp [Client.getProposedTransactionOptions, hns, hkt, hp, emptyTransactOpts]
    · simp [Client.getProposedTransactionOptions, hns, hkt, heq, emptyTransactOpts]

/-- Shared concrete client for the transaction-options witnesses: one key,
pending-nonce protection enabled, no accumulated errors. -/
def pnpClient : Client :=
  { Cfg := { Network := sampleNetwork, TracingLevel := "NONE", TraceToJson := false,
             PendingNonceProtectionEnabled := true },
    Addresses := [1001], Errors := [] }

/-- Concrete environment for the C8 witness: pending nonce 7 against last
confirmed nonce 5. -/
def pnpEnv : ProposedEnv :=
  { nonceStatus := .ok { LastNonce := 5, PendingNonce := 7 },
    pendingNonceErrId := 0, gasEnv := sampleGasEnv,
    keyedTransactor := .ok (), transactorWrapId := 1 }

/-- Witness for C8, at pending nonce 7 vs last confirmed nonce 5. -/
theorem getProposedTransactionOptions_pending_nonce_protection_witness :
    (pnpEnv.nonceStatus = .ok { LastNonce := 5, PendingNonce := 7 } ∧
     pnpEnv.keyedTransactor = .ok ()) ∧
    ((pnpClient.Cfg.PendingNonceProtectionEnabled = true →
      ({ LastNonce := 5, PendingNonce := 7 } : NonceStatus).LastNonce <
        ({ LastNonce := 5, PendingNonce := 7 } : NonceStatus).PendingNonce →
      ∃ e, (pnpClient.getProposedTransactionOptions 0 pnpEnv).opts.Context = some e ∧
        e ∈ (pnpClient.getProposedTransactionOptions 0 pnpEnv).client.Errors) ∧
    ((pnpClient.Cfg.PendingNonceProtectionEnabled = false ∨
        ({ LastNonce := 5, PendingNonce := 7 } : NonceStatus).PendingNonce =
          ({ LastNonce := 5, PendingNonce := 7 } : NonceStatus).LastNonce) →
      (pnpClient.getProposedTransactionOptions 0 pnpEnv).opts.Context = none)) :=
  ⟨⟨rfl, rfl⟩,
    getProposedTransactionOptions_pending_nonce_protection pnpClient 0 pnpEnv
      { LastNonce := 5, PendingNonce := 7 } rfl rfl⟩

/-! ## C9 — submission failure handling -/

/-- C9: For every `Decode(tx, txErr)` call with `txErr` non-nil and no
accumulated client errors: if a structured revert reason is decodable from
`txErr` via the ABI store, `Decode` returns a nil decoded transaction and an
error wrapping `txErr` whose message carries the human-readable reason
(`"reason: txErr-message"`); otherwise it returns a nil decoded transaction and
the raw `txErr`.  In either case no receipt polling, decoding side effects or
tracing happen. -/
theorem decode_submission_failed (c : Client) (tx : Option Tx) (te : GoError)
    (env : DecodeEnv) (herr : c.Errors = []) :
    (Client.Decode c tx (some te) env).decoded = none ∧
    (Client.Decode c tx (some te) env).waitedForReceipt = false ∧
    (Client.Decode c tx (some te) env).tracerCalls = 0 ∧
    (Client.Decode c tx (some te) env).revertedJsonAppends = [] ∧
    (Client.Decode c tx (some te) env).traceJsonSaves = [] ∧
    (∀ reason, env.decodeCustomABIErr = .ok reason →
      (Client.Decode c tx (some te) env).err =
        some (GoError.wrapped env.wrapAllocId reason te) ∧
      ∃ e, (Client.Decode c tx (some te) env).err = some e ∧
        e.message = reason ++ ": " ++ te.message) ∧
    (∀ de, env.decodeCustomABIErr = .error de →
      (Client.Decode c tx (some te) env).err = some te) := by
  cases habi : env.decodeCustomABIErr <;>
    simp [Client.Decode, herr, habi, GoError.message]

/-- Shared concrete client without accumulated errors for the decode
witnesses. -/
def plainClient : Client :=
  { Cfg := { Network := sampleNetwork, TracingLevel := "NONE", TraceToJson := false,
             PendingNonceProtectionEnabled := false },
    Addresses := [1001], Errors := [] }

/-- Concrete environment for the C9 witness: the ABI store decodes the revert
reason "InsufficientBalance" out of the submission error. -/
def subFailEnv : DecodeEnv :=
  { decodeCustomABIErr := .ok "InsufficientBalance",
    wrapAllocId := 20, joinAllocId := 21,
    waitMined := .error (.fundamental 22 "not mined"),
    revertReason := .fundamental 23 "revert",
    decodeResult := ({ Hash := "0xabc" }, none),
    freshNoABIMethodId := 24,
    traceResult := none }

/-- Witness for C9, at a decodable "InsufficientBalance" revert reason. -/
theorem decode_submission_failed_witness :
    plainClient.Errors = [] ∧
    ((Client.Decode plainClient (some { Hash := "0xabc" })
        (some (.fundamental 30 "execution reverted")) subFailEnv).decoded = none ∧
    (Client.Decode plainClient (some { Hash := "0xabc" })
        (some (.fundamental 30 "execution reverted")) subFailEnv).waitedForReceipt = false ∧
    (Client.Decode plainClient (some { Hash := "0xabc" })
        (some (.fundamental 30 "execution reverted")) subFailEnv).tracerCalls = 0 ∧
    (Client.Decode plainClient (some { Hash := "0xabc" })
        (some (.fundamental 30 "execution reverted")) subFailEnv).revertedJsonAppends = [] ∧
    (Client.Decode plainClient (some { Hash := "0xabc" })
        (some (.fundamental 30 "execution reverted")) subFailEnv).traceJsonSaves = [] ∧
    (∀ reason, subFailEnv.decodeCustomABIErr = .ok reason →
      (Client.Decode plainClient (some { Hash := "0xabc" })
          (some (.fundamental 30 "execution reverted")) subFailEnv).err =
        some (GoError.wrapped subFailEnv.wrapAllocId reason
          (.fundamental 30 "execution reverted")) ∧
      ∃ e, (Client.Decode plainClient (some { Hash := "0xabc" })
          (some (.fundamental 30 "execution reverted")) subFailEnv).err = some e ∧
        e.message = reason ++ ": " ++ GoError.message (.fundamental 30 "execution reverted")) ∧
    (∀ de, subFailEnv.decodeCustomABIErr = .error de →
      (Client.Decode plainClient (some { Hash := "0xabc" })
          (some (.fundamental 30 "execution reverted")) subFailEnv).err =
        some (.fundamental 30 "execution reverted"))) :=
  ⟨rfl, decode_submission_failed plainClient (some { Hash := "0xabc" })
    (.fundamental 30 "execution reverted") subFailEnv rfl⟩

/-! ## C2 — trace gating by the configured tracing level -/

/-- C2: For every mined transaction processed by `Decode` (no accumulated client
errors, nil `txErr`, non-nil transaction, receipt found; the fresh
`errors.New(ErrNoABIMethod)` allocation is distinct from any decode error, so
the comparison branch is not taken): with tracing level `NONE` the Tracer is
never invoked and the decoded record plus the revert error (if any) are
returned; with level `REVERTED` and a zero-status (reverted) receipt the
Tracer is invoked exactly once; with level `ALL` the Tracer is invoked; and
tracing never proceeds in any other case. -/
theorem decode_trace_gating (c : Client) (t : Tx) (env : DecodeEnv) (r : Receipt)
    (herr : c.Errors = []) (hw : env.waitMined = .ok r)
    (hfresh : noABIMethodBranch env.decodeResult.2 env.freshNoABIMethodId = false) :
    (c.Cfg.TracingLevel = TracingLevel_None →
      (Client.Decode c (some t) none env).tracerCalls = 0 ∧
      (Client.Decode c (some t) none env).decoded = some env.decodeResult.1 ∧
      (Client.Decode c (some t) none env).err =
        (if r.Status = 0 then some env.revertReason else none)) ∧
    (c.Cfg.TracingLevel = TracingLevel_Reverted → r.Status = 0 →
      (Client.Decode c (some t) none env).tracerCalls = 1) ∧
    (c.Cfg.TracingLevel = TracingLevel_All →
      (Client.Decode c (some t) none env).tracerCalls = 1) ∧
    (¬(c.Cfg.TracingLevel = TracingLevel_All ∨
        (c.Cfg.TracingLevel = TracingLevel_Reverted ∧ r.Status = 0)) →
      (Client.Decode c (some t) none env).tracerCalls = 0) := by
  refine ⟨?_, ?_, ?_, ?_⟩
  · intro hn
    simp [Client.Decode, herr, hw, hfresh, hn]
  · intro hR hst
    have hne : TracingLevel_Reverted ≠ TracingLevel_None := by decide
    simp only [Client.Decode, herr, hw, hfresh, hR, hst]
    simp only [List.length_nil, lt_irrefl, if_false, Bool.false_eq_true,
      if_neg hne]
    rcases htr : env.traceResult with _ | te <;> simp [htr] <;> split <;> rfl
  · intro hA
    have hne : TracingLevel_All ≠ TracingLevel_None := by decide
    simp only [Client.Decode, herr, hw, hfresh, hA]
    simp only [List.length_nil, lt_irrefl, if_false, Bool.false_eq_true,
      if_neg hne]
    rcases htr : env.traceResult with _ | te <;> simp [htr] <;> split <;> rfl
  · intro hno
    by_cases hn : c.Cfg.TracingLevel = TracingLevel_None
    · simp [Client.Decode, herr, hw, hfresh, hn]
    · by_cases hR : c.Cfg.TracingLevel = TracingLevel_Reverted
      · have hst : ¬r.Status = 0 := fun h => hno (Or.inr ⟨hR, h⟩)
        have h1 : TracingLevel_Reverted ≠ TracingLevel_None := by decide
        have h2 : TracingLevel_Reverted ≠ TracingLevel_All := by decide
        simp [Client.Decode, herr, hw, hfresh, hR, hst, h1, h2]
      · have hA : ¬c.Cfg.TracingLevel = TracingLevel_All := fun h => hno (Or.inl h)
        simp [Client.Decode, herr, hw, hfresh, hn, hR, hA]

/-- Concrete environment for the C2 witness: a reverted receipt, a successful
trace, and a decode error distinct from the fresh `ErrNoABIMethod` allocation. -/
def gatingEnv : DecodeEnv :=
  { decodeCustomABIErr := .error (.fundamental 40 "nothing to decode"),
    wrapAllocId := 41, joinAllocId := 42,
    waitMined := .ok { Status := 0 },
    revertReason := .fundamental 43 "execution reverted",
    decodeResult := ({ Hash := "0xabc" }, none),
    freshNoABIMethodId := 44,
    traceResult := none }

/-- Shared concrete client with tracing level `REVERTED` for the decode
witnesses. -/
def revertedLevelClient : Client :=
  { Cfg := { Network := sampleNetwork, TracingLevel := "REVERTED", TraceToJson := false,
             PendingNonceProtectionEnabled := false },
    Addresses := [1001], Errors := [] }

/-- Witness for C2: a reverted transaction under level `REVERTED` invokes the
Tracer exactly once. -/
theorem decode_trace_gating_witness :
    (revertedLevelClient.Errors = [] ∧
     gatingEnv.waitMined = .ok { Status := 0 } ∧
     noABIMethodBranch gatingEnv.decodeResult.2 gatingEnv.freshNoABIMethodId = false) ∧
    ((revertedLevelClient.Cfg.TracingLevel = TracingLevel_None →
      (Client.Decode revertedLevelClient (some { Hash := "0xabc" }) none gatingEnv).tracerCalls = 0 ∧
      (Client.Decode revertedLevelClient (some { Hash := "0xabc" }) none gatingEnv).decoded =
        some gatingEnv.decodeResult.1 ∧
      (Client.Decode revertedLevelClient (some { Hash := "0xabc" }) none gatingEnv).err =
        (if ({ Status := 0 } : Receipt).Status = 0 then some gatingEnv.revertReason else none)) ∧
    (revertedLevelClient.Cfg.TracingLevel = TracingLevel_Reverted →
      ({ Status := 0 } : Receipt).Status = 0 →
      (Client.Decode revertedLevelClient (some { Hash := "0xabc" }) none gatingEnv).tracerCalls = 1) ∧
    (revertedLevelClient.Cfg.TracingLevel = TracingLevel_All →
      (Client.Decode revertedLevelClient (some { Hash := "0xabc" }) none gatingEnv).tracerCalls = 1) ∧
    (¬(revertedLevelClient.Cfg.TracingLevel = TracingLevel_All ∨
        (revertedLevelClient.Cfg.TracingLevel = TracingLevel_Reverted ∧
          ({ Status := 0 } : Receipt).Status = 0)) →
      (Client.Decode revertedLevelClient (some { Hash := "0xabc" }) none gatingEnv).tracerCalls = 0)) :=
  ⟨⟨rfl, rfl, rfl⟩,
    decode_trace_gating revertedLevelClient { Hash := "0xabc" } gatingEnv
      { Status := 0 } rfl rfl rfl⟩

/-! ## C5 — EIP-1559 failure fallback and one-time downgrade to legacy fees -/

theorem calculateLegacyFees_feeCap (req : GasEstimationRequest)
    (sl : Except GoError Int) (est : GasEstimations) (net : Network) :
    (calculateLegacyFees req sl est net).1.GasFeeCap = est.GasFeeCap := by
  unfold calculateLegacyFees
  cases sl <;> rfl

theorem calculateLegacyFees_tipCap (req : GasEstimationRequest)
    (sl : Except GoError Int) (est : GasEstimations) (net : Network) :
    (calculateLegacyFees req sl est net).1.GasTipCap = est.GasTipCap := by
  unfold calculateLegacyFees
  cases sl <;> rfl

theorem calculateLegacyFees_price (req : GasEstimationRequest)
    (sl : Except GoError Int) (est : GasEstimations) (net : Network) :
    (calculateLegacyFees req sl est net).1.GasPrice =
      (match sl with
       | .ok p => some p
       | .error _ => some req.FallbackGasPrice) := by
  unfold calculateLegacyFees
  cases sl <;> rfl

theorem calculateLegacyFees_eipFlag (req : GasEstimationRequest)
    (sl : Except GoError Int) (est : GasEstimations) (net : Network) :
    (calculateLegacyFees req sl est net).2.EIP1559DynamicFees =
      net.EIP1559DynamicFees := by
  unfold calculateLegacyFees disableEstimationsIfNeeded
  cases sl
  · dsimp only
    split <;> rfl
  · rfl

theorem calculateLegacyFees_keeps_estimation_disabled (req : GasEstimationRequest)
    (sl : Except GoError Int) (est : GasEstimations) (net : Network)
    (h : net.GasPriceEstimationEnabled = false) :
    (calculateLegacyFees req sl est net).2.GasPriceEstimationEnabled = false := by
  unfold calculateLegacyFees disableEstimationsIfNeeded
  cases sl
  · dsimp only
    split
    · rfl
    · exact h
  · exact h

/-- C5: In `CalculateGasEstimations` with `EIP1559DynamicFees` enabled (on a
non-simulated network with estimation requested), if the suggested EIP-1559 fee
query fails, the result falls back to the static
`FallbackGasFeeCap`/`FallbackGasTipCap`; and if additionally the failure text
indicates the fee-suggestion method is unsupported by the node,
`EIP1559DynamicFees` is permanently set to false for this client configuration
and the gas price is recomputed with the legacy single-price estimation — a
one-time downgrade: with the downgraded configuration no later call issues an
EIP-1559 fee query. -/
theorem calculateGasEstimations_eip1559_failure_downgrade (cfg : Cfg)
    (req : GasEstimationRequest) (env : GasEnv) (e : GoError)
    (hsim : cfg.IsSimulatedNetwork = false) (hen : req.GasEstimationEnabled = true)
    (heip : cfg.Network.EIP1559DynamicFees = true)
    (hfail : env.suggestedEIP1559 = .error e) :
    (Cfg.CalculateGasEstimations cfg req env).estimations.GasFeeCap =
      some req.FallbackGasFeeCap ∧
    (Cfg.CalculateGasEstimations cfg req env).estimations.GasTipCap =
      some req.FallbackGasTipCap ∧
    (eip1559Unsupported e = true →
      (Cfg.CalculateGasEstimations cfg req env).cfg.Network.EIP1559DynamicFees = false ∧
      (Cfg.CalculateGasEstimations cfg req env).legacyQueries = 1 ∧
      (Cfg.CalculateGasEstimations cfg req env).estimations.GasPrice =
        (match env.suggestedLegacy with
         | .ok p => some p
         | .error _ => some req.FallbackGasPrice) ∧
      ∀ req2 env2,
        (Cfg.CalculateGasEstimations (Cfg.CalculateGasEstimations cfg req env).cfg
          req2 env2).eipQueries = 0) := by
  by_cases hu : eip1559Unsupported e = true
  · have hrun : Cfg.CalculateGasEstimations cfg req env =
        { estimations := (calculateLegacyFees req env.suggestedLegacy
            { GasPrice := none, GasFeeCap := some req.FallbackGasFeeCap,
              GasTipCap := some req.FallbackGasTipCap }
            { disableEstimationsIfNeeded cfg.Network e with
                EIP1559DynamicFees := false }).1,
          cfg := { cfg with Network := (calculateLegacyFees req env.suggestedLegacy
            { GasPrice := none, GasFeeCap := some req.FallbackGasFeeCap,
              GasTipCap := some req.FallbackGasTipCap }
            { disableEstimationsIfNeeded cfg.Network e with
                EIP1559DynamicFees := false }).2 },
          eipQueries := 1, legacyQueries := 1 } := by
      simp [Cfg.CalculateGasEstimations, hsim, hen, heip, hfail, hu]
    rw [hrun]
    refine ⟨by simp [calculateLegacyFees_feeCap],
            by simp [calculateLegacyFees_tipCap], ?_⟩
    intro _
    have hflag : (calculateLegacyFees req env.suggestedLegacy
        { GasPrice := none, GasFeeCap := some req.FallbackGasFeeCap,
          GasTipCap := some req.FallbackGasTipCap }
        { disableEstimationsIfNeeded cfg.Network e with
            EIP1559DynamicFees := false }).2.EIP1559DynamicFees = false := by
      rw [calculateLegacyFees_eipFlag]
    refine ⟨hflag, rfl, by simp [calculateLegacyFees_price], ?_⟩
    intro req2 env2
    exact calcGas_eipQueries_zero_of_no_dynamic_fees _ req2 env2 hflag
  · have hrun : Cfg.CalculateGasEstimations cfg req env =
        { estimations :=
            { GasPrice := none, GasFeeCap := some req.FallbackGasFeeCap,
              GasTipCap := some req.FallbackGasTipCap },
          cfg := { cfg with Network := disableEstimationsIfNeeded cfg.Network e },
          eipQueries := 1, legacyQueries := 0 } := by
      simp [Cfg.CalculateGasEstimations, hsim, hen, heip, hfail, hu]
    rw [hrun]
    exact ⟨rfl, rfl, fun h => absurd h hu⟩

/-- Concrete configuration for the EIP-1559 witnesses: dynamic fees and gas
estimation enabled on a non-simulated network. -/
def eipCfg : Cfg :=
  { Network := { sampleNetwork with
                 EIP1559DynamicFees := true,
                 GasPriceEstimationEnabled := true },
    TracingLevel := "NONE", TraceToJson := false,
    PendingNonceProtectionEnabled := false }

/-- Concrete fee-query environment for the C5 witness: the EIP-1559 query fails
with an unsupported-method message and the legacy query suggests 55. -/
def eipDownEnv : GasEnv :=
  { suggestedEIP1559 :=
      .error (.fundamental 50 "the method eth_maxPriorityFeePerGas does not exist"),
    suggestedLegacy := .ok 55 }

/-- Witness for C5, at an unsupported-method EIP-1559 failure. -/
theorem calculateGasEstimations_eip1559_failure_downgrade_witness :
    (eipCfg.IsSimulatedNetwork = false ∧ sampleReq.GasEstimationEnabled = true ∧
     eipCfg.Network.EIP1559DynamicFees = true ∧
     eipDownEnv.suggestedEIP1559 =
       .error (.fundamental 50 "the method eth_maxPriorityFeePerGas does not exist")) ∧
    ((Cfg.CalculateGasEstimations eipCfg sampleReq eipDownEnv).estimations.GasFeeCap =
      some sampleReq.FallbackGasFeeCap ∧
    (Cfg.CalculateGasEstimations eipCfg sampleReq eipDownEnv).estimations.GasTipCap =
      some sampleReq.FallbackGasTipCap ∧
    (eip1559Unsupported
        (.fundamental 50 "the method eth_maxPriorityFeePerGas does not exist") = true →
      (Cfg.CalculateGasEstimations eipCfg sampleReq eipDownEnv).cfg.Network.EIP1559DynamicFees = false ∧
      (Cfg.CalculateGasEstimations eipCfg sampleReq eipDownEnv).legacyQueries = 1 ∧
      (Cfg.CalculateGasEstimations eipCfg sampleReq eipDownEnv).estimations.GasPrice =
        (match eipDownEnv.suggestedLegacy with
         | .ok p => some p
         | .error _ => some sampleReq.FallbackGasPrice) ∧
      ∀ req2 env2,
        (Cfg.CalculateGasEstimations
          (Cfg.CalculateGasEstimations eipCfg sampleReq eipDownEnv).cfg
          req2 env2).eipQueries = 0)) :=
  ⟨⟨rfl, rfl, rfl, rfl⟩,
    calculateGasEstimations_eip1559_failure_downgrade eipCfg sampleReq eipDownEnv
      (.fundamental 50 "the method eth_maxPriorityFeePerGas does not exist")
      rfl rfl rfl rfl⟩

/-! ## C6 — degenerate zero suggested values permanently disable estimation -/

theorem calculateLegacyFees_sets_estimation_disabled (req : GasEstimationRequest)
    (sl : Except GoError Int) (est : GasEstimations) (net : Network) (e : GoError)
    (hl : sl = .error e) (hz : goContains e.message ZeroGasSuggestedErr = true) :
    (calculateLegacyFees req sl est net).2.GasPriceEstimationEnabled = false := by
  subst hl
  unfold calculateLegacyFees
  exact disableEstimationsIfNeeded_sets_false net e hz

theorem calcGas_run_eip_unsupported (cfg : Cfg) (req : GasEstimationRequest)
    (env : GasEnv) (e : GoError)
    (hsim : cfg.IsSimulatedNetwork = false) (hen : req.GasEstimationEnabled = true)
    (heip : cfg.Network.EIP1559DynamicFees = true)
    (hfail : env.suggestedEIP1559 = .error e) (hu : eip1559Unsupported e = true) :
    Cfg.CalculateGasEstimations cfg req env =
      { estimations := (calculateLegacyFees req env.suggestedLegacy
          { GasPrice := none, GasFeeCap := some req.FallbackGasFeeCap,
            GasTipCap := some req.FallbackGasTipCap }
          { disableEstimationsIfNeeded cfg.Network e with
              EIP1559DynamicFees := false }).1,
        cfg := { cfg with Network := (calculateLegacyFees req env.suggestedLegacy
          { GasPrice := none, GasFeeCap := some req.FallbackGasFeeCap,
            GasTipCap := some req.FallbackGasTipCap }
          { disableEstimationsIfNeeded cfg.Network e with
              EIP1559DynamicFees := false }).2 },
        eipQueries := 1, legacyQueries := 1 } := by
  simp [Cfg.CalculateGasEstimations, hsim, hen, heip, hfail, hu]

theorem calcGas_run_eip_error_no_downgrade (cfg : Cfg) (req : GasEstimationRequest)
    (env : GasEnv) (e : GoError)
    (hsim : cfg.IsSimulatedNetwork = false) (hen : req.GasEstimationEnabled = true)
    (heip : cfg.Network.EIP1559DynamicFees = true)
    (hfail : env.suggestedEIP1559 = .error e) (hu : ¬eip1559Unsupported e = true) :
    Cfg.CalculateGasEstimations cfg req env =
      { estimations :=
          { GasPrice := none, GasFeeCap := some req.FallbackGasFeeCap,
            GasTipCap := some req.FallbackGasTipCap },
        cfg := { cfg with Network := disableEstimationsIfNeeded cfg.Network e },
        eipQueries := 1, legacyQueries := 0 } := by
  simp [Cfg.CalculateGasEstimations, hsim, hen, heip, hfail, hu]

theorem calcGas_run_legacy_branch (cfg : Cfg) (req : GasEstimationRequest)
    (env : GasEnv)
    (hsim : cfg.IsSimulatedNetwork = false) (hen : req.GasEstimationEnabled = true)
    (heip : cfg.Network.EIP1559DynamicFees = false) :
    Cfg.CalculateGasEstimations cfg req env =
      { estimations := (calculateLegacyFees req env.suggestedLegacy
          { GasPrice := none, GasFeeCap := none, GasTipCap := none } cfg.Network).1,
        cfg := { cfg with Network := (calculateLegacyFees req env.suggestedLegacy
          { GasPrice := none, GasFeeCap := none, GasTipCap := none } cfg.Network).2 },
        eipQueries := 0, legacyQueries := 1 } := by
  simp [Cfg.CalculateGasEstimations, hsim, hen, heip]

/-- C6: In `CalculateGasEstimations` (reached with estimation requested on a
non-simulated network), any fee-query failure whose error message carries the
zero-suggested-value marker sets `GasPriceEstimationEnabled` to false —
permanently disabling estimation, so a later call built from the default
request issues no fee queries at all — regardless of whether the EIP-1559
query, the legacy query after the EIP-1559 downgrade, or the plain legacy
query produced the failure. -/
theorem calculateGasEstimations_zero_gas_disables_estimation (cfg : Cfg)
    (req : GasEstimationRequest) (env : GasEnv)
    (hsim : cfg.IsSimulatedNetwork = false) (hen : req.GasEstimationEnabled = true)
    (hzero :
      (cfg.Network.EIP1559DynamicFees = true ∧ ∃ e, env.suggestedEIP1559 = .error e ∧
        goContains e.message ZeroGasSuggestedErr = true) ∨
      (cfg.Network.EIP1559DynamicFees = true ∧ ∃ e, env.suggestedEIP1559 = .error e ∧
        eip1559Unsupported e = true ∧ ∃ e2, env.suggestedLegacy = .error e2 ∧
          goContains e2.message ZeroGasSuggestedErr = true) ∨
      (cfg.Network.EIP1559DynamicFees = false ∧ ∃ e, env.suggestedLegacy = .error e ∧
        goContains e.message ZeroGasSuggestedErr = true)) :
    (Cfg.CalculateGasEstimations cfg req env).cfg.Network.GasPriceEstimationEnabled = false ∧
    ∀ env2,
      (Cfg.CalculateGasEstimations (Cfg.CalculateGasEstimations cfg req env).cfg
        (NewDefaultGasEstimationRequest
          (Cfg.CalculateGasEstimations cfg req env).cfg) env2).eipQueries = 0 ∧
      (Cfg.CalculateGasEstimations (Cfg.CalculateGasEstimations cfg req env).cfg
        (NewDefaultGasEstimationRequest
          (Cfg.CalculateGasEstimations cfg req env).cfg) env2).legacyQueries = 0 := by
  have hmain :
      (Cfg.CalculateGasEstimations cfg req env).cfg.Network.GasPriceEstimationEnabled = false := by
    rcases hzero with ⟨heip, e, hf, hz⟩ | ⟨heip, e, hf, hu, e2, hl, hz2⟩ | ⟨heip, e, hl, hz⟩
    · by_cases hu : eip1559Unsupported e = true
      · rw [calcGas_run_eip_unsupported cfg req env e hsim hen heip hf hu]
        exact calculateLegacyFees_keeps_estimation_disabled _ _ _ _
          (disableEstimationsIfNeeded_sets_false cfg.Network e hz)
      · rw [calcGas_run_eip_error_no_downgrade cfg req env e hsim hen heip hf hu]
        exact disableEstimationsIfNeeded_sets_false cfg.Network e hz
    · rw [calcGas_run_eip_unsupported cfg req env e hsim hen heip hf hu]
      exact calculateLegacyFees_sets_estimation_disabled _ _ _ _ e2 hl hz2
    · rw [calcGas_run_legacy_branch cfg req env hsim hen heip]
      exact calculateLegacyFees_sets_estimation_disabled _ _ _ _ e hl hz
  exact ⟨hmain, fun env2 => calcGas_no_queries_of_estimation_disabled _ env2 hmain⟩

/-- Concrete fee-query environment for the C6 witness: the legacy query fails
with the zero-suggested-value marker in its message. -/
def zeroGasEnv : GasEnv :=
  { suggestedEIP1559 := .ok (100, 3),
    suggestedLegacy := .error (.fundamental 60
      ("rpc failure: " ++ ZeroGasSuggestedErr)) }

/-- Concrete configuration for the C6 witness: legacy pricing with estimation
enabled on a non-simulated network. -/
def legacyEstCfg : Cfg :=
  { Network := { sampleNetwork with GasPriceEstimationEnabled := true },
    TracingLevel := "NONE", TraceToJson := false,
    PendingNonceProtectionEnabled := false }

/-- Witness for C6, at a legacy fee-query failure carrying the zero marker. -/
theorem calculateGasEstimations_zero_gas_disables_estimation_witness :
    (legacyEstCfg.IsSimulatedNetwork = false ∧
     sampleReq.GasEstimationEnabled = true ∧
     (legacyEstCfg.Network.EIP1559DynamicFees = false ∧
       ∃ e, zeroGasEnv.suggestedLegacy = .error e ∧
         goContains e.message ZeroGasSuggestedErr = true)) ∧
    ((Cfg.CalculateGasEstimations legacyEstCfg sampleReq zeroGasEnv).cfg.Network.GasPriceEstimationEnabled = false ∧
    ∀ env2,
      (Cfg.CalculateGasEstimations
        (Cfg.CalculateGasEstimations legacyEstCfg sampleReq zeroGasEnv).cfg
        (NewDefaultGasEstimationRequest
          (Cfg.CalculateGasEstimations legacyEstCfg sampleReq zeroGasEnv).cfg) env2).eipQueries = 0 ∧
      (Cfg.CalculateGasEstimations
        (Cfg.CalculateGasEstimations legacyEstCfg sampleReq zeroGasEnv).cfg
        (NewDefaultGasEstimationRequest
          (Cfg.CalculateGasEstimations legacyEstCfg sampleReq zeroGasEnv).cfg) env2).legacyQueries = 0) :=
  ⟨⟨rfl, rfl, rfl, ⟨.fundamental 60 ("rpc failure: " ++ ZeroGasSuggestedErr),
      rfl, by decide⟩⟩,
    calculateGasEstimations_zero_gas_disables_estimation legacyEstCfg sampleReq
      zeroGasEnv rfl rfl
      (Or.inr (Or.inr ⟨rfl, ⟨.fundamental 60 ("rpc failure: " ++ ZeroGasSuggestedErr),
        rfl, by decide⟩⟩))⟩

/-! ## C7 — missing debug API permanently downgrades tracing to NONE -/

/-- C7: In `Decode`, if tracing is attempted (level `ALL`, or `REVERTED` with a
zero-status receipt) and fails with an error whose text says the node's
`debug_traceTransaction` API does not exist, the client's `TracingLevel` is set
to `NONE`, `Decode` still returns the decoded record together with the revert
error (if any), and with the downgraded client no later `Decode` call — on any
input — ever invokes the Tracer again. -/
theorem decode_trace_debug_api_downgrade (c : Client) (t : Tx) (env : DecodeEnv)
    (r : Receipt) (te : GoError)
    (herr : c.Errors = []) (hw : env.waitMined = .ok r)
    (hfresh : noABIMethodBranch env.decodeResult.2 env.freshNoABIMethodId = false)
    (hgate : c.Cfg.TracingLevel = TracingLevel_All ∨
      (c.Cfg.TracingLevel = TracingLevel_Reverted ∧ r.Status = 0))
    (htr : env.traceResult = some te)
    (hdbg : goContains te.message "debug_traceTransaction does not exist" = true) :
    (Client.Decode c (some t) none env).client.Cfg.TracingLevel = TracingLevel_None ∧
    (Client.Decode c (some t) none env).decoded = some env.decodeResult.1 ∧
    (Client.Decode c (some t) none env).err =
      (if r.Status = 0 then some env.revertReason else none) ∧
    ∀ tx2 txErr2 env2,
      (Client.Decode (Client.Decode c (some t) none env).client tx2 txErr2
        env2).tracerCalls = 0 := by
  have hrun : Client.Decode c (some t) none env =
      { decoded := some env.decodeResult.1,
        err := if r.Status = 0 then some env.revertReason else none,
        client := { c with Cfg := { c.Cfg with TracingLevel := TracingLevel_None } },
        tracerCalls := 1, waitedForReceipt := true, revertedJsonAppends := [],
        traceJsonSaves := if c.Cfg.TraceToJson then [env.decodeResult.1.Hash] else [] } := by
    rcases hgate with hA | ⟨hR, hst⟩
    · have hne : TracingLevel_All ≠ TracingLevel_None := by decide
      simp [Client.Decode, herr, hw, hfresh, hA, htr, hdbg, hne]
    · have hne : TracingLevel_Reverted ≠ TracingLevel_None := by decide
      simp [Client.Decode, herr, hw, hfresh, hR, hst, htr, hdbg, hne]
  rw [hrun]
  exact ⟨rfl, rfl, rfl,
    fun tx2 txErr2 env2 => decode_skips_tracer_of_level_none _ tx2 txErr2 env2 rfl⟩

/-- Concrete environment for the C7 witness: a reverted receipt and a trace
failure reporting that `debug_traceTransaction` does not exist. -/
def debugApiEnv : DecodeEnv :=
  { decodeCustomABIErr := .error (.fundamental 70 "nothing to decode"),
    wrapAllocId := 71, joinAllocId := 72,
    waitMined := .ok { Status := 0 },
    revertReason := .fundamental 73 "execution reverted",
    decodeResult := ({ Hash := "0xdef" }, none),
    freshNoABIMethodId := 74,
    traceResult := some (.fundamental 75
      "the method debug_traceTransaction does not exist/is not available") }

/-- Shared concrete client with tracing level `ALL` for the C7 witness. -/
def allLevelClient : Client :=
  { Cfg := { Network := sampleNetwork, TracingLevel := "ALL", TraceToJson := false,
             PendingNonceProtectionEnabled := false },
    Addresses := [1001], Errors := [] }

/-- Witness for C7, at tracing level `ALL` and a missing-debug-API trace error. -/
theorem decode_trace_debug_api_downgrade_witness :
    (allLevelClient.Errors = [] ∧
     debugApiEnv.waitMined = .ok { Status := 0 } ∧
     noABIMethodBranch debugApiEnv.decodeResult.2 debugApiEnv.freshNoABIMethodId = false ∧
     (allLevelClient.Cfg.TracingLevel = TracingLevel_All ∨
       (allLevelClient.Cfg.TracingLevel = TracingLevel_Reverted ∧
         ({ Status := 0 } : Receipt).Status = 0)) ∧
     debugApiEnv.traceResult = some (.fundamental 75
       "the method debug_traceTransaction does not exist/is not available") ∧
     goContains
       (GoError.message (.fundamental 75
         "the method debug_traceTransaction does not exist/is not available"))
       "debug_traceTransaction does not exist" = true) ∧
    ((Client.Decode allLevelClient (some { Hash := "0xdef" }) none
        debugApiEnv).client.Cfg.TracingLevel = TracingLevel_None ∧
    (Client.Decode allLevelClient (some { Hash := "0xdef" }) none
        debugApiEnv).decoded = some debugApiEnv.decodeResult.1 ∧
    (Client.Decode allLevelClient (some { Hash := "0xdef" }) none
        debugApiEnv).err =
      (if ({ Status := 0 } : Receipt).Status = 0 then some debugApiEnv.revertReason
       else none) ∧
    ∀ tx2 txErr2 env2,
      (Client.Decode (Client.Decode allLevelClient (some { Hash := "0xdef" }) none
        debugApiEnv).client tx2 txErr2 env2).tracerCalls = 0) :=
  ⟨⟨rfl, rfl, rfl, Or.inl rfl, rfl, by decide⟩,
    decode_trace_debug_api_downgrade allLevelClient { Hash := "0xdef" } debugApiEnv
      { Status := 0 }
      (.fundamental 75 "the method debug_traceTransaction does not exist/is not available")
      rfl rfl rfl (Or.inl rfl) rfl (by decide)⟩

/-! ## C1 — the out-of-range guard in NewTXKeyOpts is off by one -/

/-- Concrete one-key client for the C1 evaluation. -/
def c1Client : Client :=
  { Cfg := { Network := sampleNetwork, TracingLevel := "NONE", TraceToJson := false,
             PendingNonceProtectionEnabled := false },
    Addresses := [1001], Errors := [] }

/-- Concrete environment for the C1 evaluation. -/
def c1Env : TxKeyOptsEnv :=
  { outOfRangeErrId := 80,
    proposed := { nonceStatus := .ok { LastNonce := 0, PendingNonce := 0 },
                  pendingNonceErrId := 81, gasEnv := sampleGasEnv,
                  keyedTransactor := .ok (), transactorWrapId := 82 } }

/-- C1 (evaluation at the failing input): with one loaded address, the guard
`keyNum > len(m.Addresses) || keyNum < 0` lets `keyNum = len(Addresses) = 1`
through, and the subsequent `m.Addresses[keyNum]` dereference panics
(modelled as `none`) — no empty `TransactOpts` carrying the error is returned.
For contrast, at `keyNum = 2` (strictly above the length) the guard fires and
the poisoned-but-present options object is returned with the error in its
context and in the accumulated `Errors`. -/
theorem newTXKeyOpts_keyNum_eq_len_panics :
    Client.NewTXKeyOpts c1Client 1 c1Env [] = none ∧
    (Client.NewTXKeyOpts c1Client 2 c1Env []).map
      (fun p => p.2.Context.isSome) = some true ∧
    (Client.NewTXKeyOpts c1Client 2 c1Env []).map
      (fun p => p.1.Errors.length) = some 1 ∧
    (Client.NewTXKeyOpts c1Client TimeoutKeyNum c1Env []).map
      (fun p => p.2.Context.isSome) = some true :=
  ⟨rfl, rfl, rfl, rfl⟩

/-! ## C3 — the undecodable-transaction branch is unreachable -/

/-- Concrete client for the C3 evaluation: JSON export (`TraceToJson`)
enabled. -/
def c3Client : Client :=
  { Cfg := { Network := sampleNetwork, TracingLevel := "NONE", TraceToJson := true,
             PendingNonceProtectionEnabled := false },
    Addresses := [1001], Errors := [] }

/-- Concrete environment for the C3 evaluation: decoding the mined transaction
failed with exactly the no-ABI-method error (allocation 0, message
`ErrNoABIMethod`); the `errors.New(ErrNoABIMethod)` value constructed at the
comparison site in src/client.go:447 is a distinct, fresh allocation (id 1). -/
def c3Env : DecodeEnv :=
  { decodeCustomABIErr := .error (.fundamental 90 "nothing to decode"),
    wrapAllocId := 91, joinAllocId := 92,
    waitMined := .ok { Status := 1 },
    revertReason := .fundamental 93 "execution reverted",
    decodeResult := ({ Hash := "0xabc" }, some (.fundamental 0 ErrNoABIMethod)),
    freshNoABIMethodId := 1,
    traceResult := none }

/-- C3 (evaluation at the failing input): the decode error is precisely the
no-ABI-method error and JSON export is enabled, yet
`errors.Is(decodeErr, errors.New(ErrNoABIMethod))` is false — the target is a
fresh allocation compared by identity — so the transaction hash is never
appended to the persisted reverted-transactions file. -/
theorem decode_noABIMethod_branch_unreachable :
    GoError.message (.fundamental 0 ErrNoABIMethod) = ErrNoABIMethod ∧
    c3Client.Cfg.TraceToJson = true ∧
    noABIMethodBranch (some (.fundamental 0 ErrNoABIMethod)) 1 = false ∧
    (Client.Decode c3Client (some { Hash := "0xabc" }) none c3Env).revertedJsonAppends = [] :=
  ⟨rfl, rfl, rfl, rfl⟩
